import Mathlib

/-!
Shallow embedding of `quickrelease/command.py` (Python 2): the external-command
execution engine of the quickrelease framework.  The embedding covers the
output pipeline (`_EnqueueOutput`, `_OutputQueueReader` with its `run` loop,
`_FlushBigOutputToFile` and `GetOutput`), the `RunShellCommand` constructor
validation, display string, `Run`, and `RunShellCommandError`.

Modelling conventions:
* machine integers and Python ints are `Int`/`Nat`;
* Python `None` is `Option.none`;
* the cross-thread queue is modelled as the list of records it ever carries,
  in arrival order; an arbitrary interleaving of the two drainers' outputs
  (the `Interleaves` relation);
* file handles (log sinks, the spill file, the console) are modelled by the
  sequence of writes made to them;
* dynamic typing is narrowed to the value shapes the claims need: `PyArg`
  covers string and integer arguments plus a constructor `pyOther` for any
  type rejected by `_CheckRunShellCommandArg` (unicode, float and nested list
  arguments are not modelled); `stdin` feeding (`input` argument and
  `_WriteInput`) and the `OSError`/`KeyboardInterrupt` paths are not modelled.
-/

namespace QuickRelease

/-- `PIPE_STDOUT = 1` (command.py line 67). -/
def PIPE_STDOUT : Nat := 1

/-- `PIPE_STDERR = 2` (command.py line 68). -/
def PIPE_STDERR : Nat := 2

/-- Helper for `REMOVE_LINE_ENDING`, on the character list of the string:
removes one optional `'\r'` followed by one optional `'\n'` at the end. -/
def removeLineEndingChars (cs : List Char) : List Char :=
  match cs.reverse with
  | '\n' :: '\r' :: rest => rest.reverse
  | '\n' :: rest => rest.reverse
  | '\r' :: rest => rest.reverse
  | _ => cs

/-- `REMOVE_LINE_ENDING = lambda x: re.sub('\r?\n?$', '', x)` (line 73).
Faithful for strings with no interior newline, which is all the call sites
ever pass: every argument is a single line produced by `readline`. -/
def REMOVE_LINE_ENDING (x : String) : String := ⟨removeLineEndingChars x.data⟩

/-- `_OutputLineDesc` (lines 768-773): a typed, timestamped output record.
`content = none` models Python `content = None`, the per-stream EOF
sentinel. -/
structure _OutputLineDesc where
  time : Nat
  type : Nat
  content : Option String
deriving Repr, DecidableEq

/-- `_LogHandleDesc` (lines 775-779): a log sink with a stream-tag filter.
The open OS handle is modelled by the list of writes made to it. -/
structure _LogHandleDesc where
  type : Nat
  written : List String
deriving Repr, DecidableEq

/-- `_EnqueueOutput` (lines 788-794): the drainer thread for one pipe.  The
pipe's contents are given as the list of lines `readline` yields; `times` maps
the record index to the `time.time()` stamp taken when the record was built.
The drainer emits one content record per line, in order, followed by exactly
one sentinel. `stampRecords` builds the content-record part. -/
def stampRecords (pipeType : Nat) (times : Nat → Nat) : Nat → List String → List _OutputLineDesc
  | _, [] => []
  | i, l :: rest => ⟨times i, pipeType, some l⟩ :: stampRecords pipeType times (i + 1) rest

/-- The full record sequence `_EnqueueOutput` puts on the queue for one pipe:
content records for each line, then the sentinel (lines 789-794). -/
def _EnqueueOutput (lines : List String) (pipeType : Nat) (times : Nat → Nat) : List _OutputLineDesc :=
  stampRecords pipeType times 0 lines ++ [⟨times lines.length, pipeType, none⟩]

/-- State of `_OutputQueueReader` (lines 76-100).  `_collectedOutput` is the
dict `{PIPE_STDOUT: [...], PIPE_STDERR: [...]}`, modelled by its two entries.
`_bigOutputFile` is `None` until `_FlushBigOutputToFile` creates the
temporary file; afterwards it is the append-only list of pickled
`{'type': t, 'contents': batch}` entries.  `printed` is the trace of console
prints. -/
structure _OutputQueueReader where
  printOutput : Bool
  bufferedOutput : Bool
  _storeBigOutput : Bool
  _monitoredStreams : Nat
  _logHandleDescriptors : List _LogHandleDesc
  _collectedStdout : List _OutputLineDesc
  _collectedStderr : List _OutputLineDesc
  _bigOutputFile : Option (List (Nat × List _OutputLineDesc))
  _maxInMemLines : Nat
  printed : List String
deriving Repr, DecidableEq

/-- `_OutputQueueReader.__init__` (lines 77-97).  `maxInMemLines` stands for
`ConfigSpec.GetConstant('RUN_SHELL_COMMAND_IN_MEM_LINES')`, which this
snapshot reads from the environment; it is a parameter of the model. -/
def mkOutputQueueReader (monitoredStreams : Nat) (logHandleDescriptors : List _LogHandleDesc)
    (storeBigOutput : Bool) (printOutput : Bool) (bufferedOutput : Bool)
    (maxInMemLines : Nat) : _OutputQueueReader :=
  ⟨printOutput, bufferedOutput, storeBigOutput, monitoredStreams,
   logHandleDescriptors, [], [], none, maxInMemLines, []⟩

/-- `backedByFile` property (line 99): `self._bigOutputFileHandle is not None`. -/
def _OutputQueueReader.backedByFile (st : _OutputQueueReader) : Bool :=
  st._bigOutputFile.isSome

/-- Lookup in the `_collectedOutput` dict, whose keys are exactly
`PIPE_STDOUT` and `PIPE_STDERR` (lines 92-93). -/
def _OutputQueueReader._collectedOutput (st : _OutputQueueReader) (t : Nat) : List _OutputLineDesc :=
  if t = PIPE_STDOUT then st._collectedStdout else st._collectedStderr

/-- Assignment `self._collectedOutput[t] = l` for the two keys in use. -/
def _OutputQueueReader.setCollected (st : _OutputQueueReader) (t : Nat)
    (l : List _OutputLineDesc) : _OutputQueueReader :=
  if t = PIPE_STDOUT then { st with _collectedStdout := l }
  else { st with _collectedStderr := l }

/-- `_FlushBigOutputToFile` (lines 166-180): a no-op unless `storeBigOutput`;
otherwise creates the temporary file lazily, appends the pickled
`{'type': outputType, 'contents': collected batch}` entry (even when the
batch is empty), and clears that stream's in-memory list. -/
def _OutputQueueReader._FlushBigOutputToFile (st : _OutputQueueReader) (outputType : Nat) : _OutputQueueReader :=
  if st._storeBigOutput then
    let file := st._bigOutputFile.getD []
    let entry := (outputType, st._collectedOutput outputType)
    let st' := st.setCollected outputType []
    { st' with _bigOutputFile := some (file ++ [entry]) }
  else st

/-- One non-sentinel iteration of the `run` loop body (lines 129-148): print
to console if `printOutput` (with line ending removed), write the raw content
to every log sink whose tag matches, append the record to that stream's
in-memory list, and spill to the file once the list length exceeds
`_maxInMemLines`. -/
def _OutputQueueReader.processLine (st : _OutputQueueReader) (lineDesc : _OutputLineDesc)
    (c : String) : _OutputQueueReader :=
  let st1 := if st.printOutput then { st with printed := st.printed ++ [REMOVE_LINE_ENDING c] } else st
  let st2 := { st1 with _logHandleDescriptors :=
    st1._logHandleDescriptors.map (fun (h : _LogHandleDesc) =>
      if h.type = lineDesc.type then { h with written := h.written ++ [c] } else h) }
  let st3 := st2.setCollected lineDesc.type (st2._collectedOutput lineDesc.type ++ [lineDesc])
  if (st3._collectedOutput lineDesc.type).length > st3._maxInMemLines then
    st3._FlushBigOutputToFile lineDesc.type
  else st3

/-- The `run` loop of `_OutputQueueReader` (lines 102-148) as a fold over the
queue's record sequence.  A sentinel flushes the stream's remaining batch and
bumps the death count; the loop breaks when the death count reaches
`_monitoredStreams`.  Returns the final state, the final death count, and the
queue records left unconsumed at the break (the real loop would block forever
if the records ran out before the death count were reached, which the returned
remainder also distinguishes). -/
def _OutputQueueReader.runLoop : _OutputQueueReader → Nat → List _OutputLineDesc →
    _OutputQueueReader × Nat × List _OutputLineDesc
  | st, streamDeathCount, [] => (st, streamDeathCount, [])
  | st, streamDeathCount, lineDesc :: rest =>
    match lineDesc.content with
    | none =>
      let st' := st._FlushBigOutputToFile lineDesc.type
      let dc' := streamDeathCount + 1
      if dc' = st'._monitoredStreams then (st', dc', rest)
      else st'.runLoop dc' rest
    | some c => (st.processLine lineDesc c).runLoop streamDeathCount rest

/-- The two shapes `GetOutput` returns: a raw string blob or a list of
line-ending-stripped lines. -/
inductive PyOut
  | pyStr (s : String)
  | pyList (l : List String)
deriving Repr, DecidableEq

/-- `GetOutput` (lines 182-224).  Raises `ValueError` for an output type not
in the `_collectedOutput` dict (keys are exactly `PIPE_STDOUT` and
`PIPE_STDERR`).  When the spill file exists, replays its entries in append
order, keeping only those of the requested type, ignoring `_collectedOutput`;
otherwise reads the in-memory list.  `raw` concatenates contents unmodified;
otherwise each line's ending is removed. -/
def _OutputQueueReader.GetOutput (st : _OutputQueueReader) (outputType : Nat) (raw : Bool) :
    Except String PyOut :=
  if outputType = PIPE_STDOUT ∨ outputType = PIPE_STDERR then
    match st._bigOutputFile with
    | some batches =>
      let matching := batches.filter (fun b => b.1 = outputType)
      if raw then
        .ok (.pyStr (String.join (matching.flatMap (fun b => b.2.map (fun x => x.content.getD "")))))
      else
        .ok (.pyList (matching.flatMap (fun b => b.2.map (fun x => REMOVE_LINE_ENDING (x.content.getD "")))))
    | none =>
      if raw then
        .ok (.pyStr (String.join ((st._collectedOutput outputType).map (fun x => x.content.getD ""))))
      else
        .ok (.pyList ((st._collectedOutput outputType).map (fun x => REMOVE_LINE_ENDING (x.content.getD ""))))
  else .error "No output type processed by this output monitor"

/-- `GetOutput` as a state-passing call: the Python method only opens and
closes a fresh read handle on the spill file; it never writes
`_collectedOutput` or the file, so the reader state after the call is the
state before it. -/
def _OutputQueueReader.GetOutputM (st : _OutputQueueReader) (outputType : Nat) (raw : Bool) :
    Except String PyOut × _OutputQueueReader :=
  (st.GetOutput outputType raw, st)

/-- Python values accepted (or not) as elements of the `command` sequence.
`pyOther` stands for any type `_CheckRunShellCommandArg` rejects (line 764
accepts str, unicode, int, float, list, long; unicode, float and nested list
values are not modelled here). -/
inductive PyArg
  | pyStr (s : String)
  | pyInt (n : Int)
  | pyOther
deriving Repr, DecidableEq

/-- Python `str()` on a supported argument (lines 453-455). `pyOther` is
rejected before `str()` is ever applied to it. -/
def pyArgToString : PyArg → String
  | .pyStr s => s
  | .pyInt n => toString n
  | .pyOther => ""

/-- `_CheckRunShellCommandArg` (lines 763-766), as a Boolean: `false` means
the `TypeError` is raised (and turned into a `ValueError` by the caller). -/
def _CheckRunShellCommandArg : PyArg → Bool
  | .pyOther => false
  | _ => true

/-- The Python value passed as `command`: either a list/tuple of arguments or
some non-sequence value (line 407 requires list or tuple). -/
inductive PyCommandVal
  | pyList (args : List PyArg)
  | pyNonSequence
deriving Repr, DecidableEq

/-- Python values passed as `timeout` (other than `None`, which is the
`Option.none` around this type): an int, a string that `int()` parses, or a
string that makes `int()` raise `ValueError`. -/
inductive PyTimeoutVal
  | tInt (n : Int)
  | tNumericStr (n : Int)
  | tBadStr (s : String)
deriving Repr, DecidableEq

/-- Python `int()` coercion on a timeout value (line 482): `none` models the
`ValueError`. -/
def pyIntCoerce : PyTimeoutVal → Option Int
  | .tInt n => some n
  | .tNumericStr n => some n
  | .tBadStr _ => none

/-- The keyword arguments of `RunShellCommand.__init__`, after merging with
`RUN_SHELL_COMMAND_DEFAULT_ARGS` (lines 258-274, 400-405).  The `input`
argument is not modelled (stdin feeding is out of the claims' scope and is
taken as its default `None`). -/
structure RunShellCommandArgs where
  command : PyCommandVal
  appendLogfile : Bool
  appendErrorLogfile : Bool
  autoRun : Bool
  combineOutput : Bool
  errorLogfile : Option String
  logfile : Option String
  printOutput : Option Bool
  timeout : Option PyTimeoutVal
  raiseErrors : Bool
  verbose : Bool
  workdir : Option String
  storeBigOutput : Bool
deriving Repr, DecidableEq

/-- `RUN_SHELL_COMMAND_DEFAULT_ARGS` (lines 258-274).  The default timeout is
`RUN_SHELL_COMMAND_DEFAULT_TIMEOUT * RUN_SHELL_COMMAND_TIMEOUT_FACTOR`, whose
factor this snapshot reads from the environment, so it is a parameter. -/
def RUN_SHELL_COMMAND_DEFAULT_ARGS (defaultTimeout : PyTimeoutVal) : RunShellCommandArgs :=
  ⟨.pyList [], true, true, true, true, none, none, none, some defaultTimeout, true, false, none, true⟩

/-- `DEFAULT__STR__SEPARATOR = ','` (line 579). -/
def DEFAULT__STR__SEPARATOR : String := ","

/-- The state of a `RunShellCommand` object.  The field
`_RunShellCommand__str__separator` is the attribute that line 458
(`self.__str__separator = '|'`) actually writes: inside `class
RunShellCommand`, Python's private-name mangling turns `__str__separator`
into `_RunShellCommand__str__separator`; `none` means the attribute was never
assigned.  `str__separator` is the separate (class-level) attribute that
`__str__` reads (lines 580, 584) and `SetStrOpts` writes. -/
structure RunShellCommand where
  _command : List PyArg
  _execArray : List String
  _workdir : String
  _timeout : Option Int
  _raiseErrors : Bool
  _storeBigOutput : Bool
  _printOutput : Bool
  _verbose : Bool
  _combineOutput : Bool
  _logfile : Option String
  _errorLogfile : Option String
  _appendLogfile : Bool
  _appendErrorLogfile : Bool
  _processWasKilled : Bool
  _processTimedOut : Bool
  _startTime : Option Int
  _endTime : Option Int
  _returncode : Option Int
  _outputMonitor : Option _OutputQueueReader
  _RunShellCommand__str__separator : Option String
  str__separator : String
  str__decorate : Bool
deriving Repr, DecidableEq

/-- The two exception classes `__init__` raises: `ValueError` and
`ReleaseFrameworkError` (for the invalid working directory, line 474). -/
inductive InitError
  | valueError (msg : String)
  | releaseFrameworkError (msg : String)
deriving Repr, DecidableEq

/-- The `for ndx in range(len(self._command))` loop of `__init__` (lines
441-468): type-checks each argument (a failing check raises, converted to
`ValueError`), converts it with `str()`, and records `'|'` in the (mangled)
separator attribute as soon as some converted argument contains the default
separator `','` (`self.DEFAULT__STR__SEPARATOR in commandPart`, line 457;
the separator is the single character `','`, so substring containment is
character containment). Returns the exec array and the mangled attribute. -/
def buildExecArray : List PyArg → Except InitError (List String × Option String)
  | [] => .ok ([], none)
  | a :: rest =>
    if _CheckRunShellCommandArg a then
      let commandPart := pyArgToString a
      match buildExecArray rest with
      | .error e => .error e
      | .ok (parts, sep) =>
        .ok (commandPart :: parts,
             if commandPart.data.contains ',' then some "|" else sep)
    else .error (.valueError "RunShellCommand(): unexpected argument type")

/-- `RunShellCommand.__init__` (lines 289-488), excluding the `autoRun` call
to `Run` (modelled separately).  `isdir` is the `os.path.isdir` oracle and
`getcwd` the current working directory.  Check order follows the source:
command type, emptiness, the argument loop, working-directory existence,
`printOutput` defaulting, timeout coercion. -/
def RunShellCommand_init (args : RunShellCommandArgs) (isdir : String → Bool) (getcwd : String) :
    Except InitError RunShellCommand :=
  match args.command with
  | .pyNonSequence => .error (.valueError "RunShellCommand: command must be list/tuple.")
  | .pyList cmd =>
    if cmd.length = 0 then .error (.valueError "RunShellCommand: Empty command.")
    else
      match buildExecArray cmd with
      | .error e => .error e
      | .ok (execArray, mangledSep) =>
        let workdir := args.workdir.getD getcwd
        if isdir workdir then
          let printOutput := args.printOutput.getD args.verbose
          let mkObj := fun (t : Option Int) =>
            ({ _command := cmd, _execArray := execArray, _workdir := workdir,
               _timeout := t, _raiseErrors := args.raiseErrors,
               _storeBigOutput := args.storeBigOutput, _printOutput := printOutput,
               _verbose := args.verbose, _combineOutput := args.combineOutput,
               _logfile := args.logfile, _errorLogfile := args.errorLogfile,
               _appendLogfile := args.appendLogfile,
               _appendErrorLogfile := args.appendErrorLogfile,
               _processWasKilled := false, _processTimedOut := false,
               _startTime := none, _endTime := none, _returncode := none,
               _outputMonitor := none,
               _RunShellCommand__str__separator := mangledSep,
               str__separator := DEFAULT__STR__SEPARATOR,
               str__decorate := true } : RunShellCommand)
          match args.timeout with
          | none => .ok (mkObj none)
          | some tv =>
            match pyIntCoerce tv with
            | none => .error (.valueError "RunShellCommand(): Invalid timeout value")
            | some n => .ok (mkObj (some n))
        else .error (.releaseFrameworkError "RunShellCommand(): Invalid working directory")

/-- `_GetOutputFromMonitor` (lines 505-508): `None` before `Run` has created
the output monitor. -/
def RunShellCommand._GetOutputFromMonitor (rsc : RunShellCommand) (outputType : Nat) (raw : Bool) :
    Option (Except String PyOut) :=
  match rsc._outputMonitor with
  | none => none
  | some m => some (m.GetOutput outputType raw)

/-- The `stdout` property (lines 491, 524). -/
def RunShellCommand.stdout (rsc : RunShellCommand) : Option (Except String PyOut) :=
  rsc._GetOutputFromMonitor PIPE_STDOUT false

/-- The `rawstdout` property (lines 492-493, 529). -/
def RunShellCommand.rawstdout (rsc : RunShellCommand) : Option (Except String PyOut) :=
  rsc._GetOutputFromMonitor PIPE_STDOUT true

/-- The `stderr` property (lines 494, 534). -/
def RunShellCommand.stderr (rsc : RunShellCommand) : Option (Except String PyOut) :=
  rsc._GetOutputFromMonitor PIPE_STDERR false

/-- `_GetRawStderr` (lines 495-496). -/
def RunShellCommand.rawstderr (rsc : RunShellCommand) : Option (Except String PyOut) :=
  rsc._GetOutputFromMonitor PIPE_STDERR true

/-- The `outputBackedByFile` property (lines 510-513): `False` before `Run`,
else the monitor's `backedByFile`. -/
def RunShellCommand.outputBackedByFile (rsc : RunShellCommand) : Bool :=
  match rsc._outputMonitor with
  | none => false
  | some m => m.backedByFile

/-- The `runningtime` property (lines 515-518): `None` until both
`_startTime` and `_endTime` are set. -/
def RunShellCommand.runningtime (rsc : RunShellCommand) : Option Int :=
  match rsc._startTime, rsc._endTime with
  | some s, some e => some (e - s)
  | _, _ => none

/-- `__str__` (lines 583-588): joins `_execArray` with `str__separator`
(note: not the name-mangled attribute the constructor's escalation wrote) and
brackets the result when `str__decorate` is set. -/
def RunShellCommand.pyToString (rsc : RunShellCommand) : String :=
  let strRep := String.intercalate rsc.str__separator rsc._execArray
  if rsc.str__decorate then "[" ++ strRep ++ "]" else strRep

/-- `SetStrOpts` (lines 596-611). -/
def RunShellCommand.SetStrOpts (rsc : RunShellCommand) (separator : String) (decorate : Bool) :
    RunShellCommand :=
  { rsc with str__separator := separator, str__decorate := decorate }

/-- Python 2 `>=` between values that may be `None` (used at line 735 on
`self.runningtime >= self.timeout`): in CPython 2, `None` compares less than
every number, and `None >= None` is true. -/
def py2GeOpt : Option Int → Option Int → Bool
  | none, none => true
  | none, some _ => false
  | some _, none => true
  | some a, some b => a ≥ b

/-- `RunShellCommandError.STDERR_DISPLAY_CONTEXT = 5` (line 235). -/
def STDERR_DISPLAY_CONTEXT : Nat := 5

/-- Python `l[-n:]`: the last `min(n, len l)` elements. -/
def lastSlice (n : Nat) (l : List String) : List String := l.drop (l.length - n)

/-- `RunShellCommandError` (lines 226-256): the explanation string plus the
`details` slot holding the whole `RunShellCommand` object. -/
structure RunShellCommandError where
  explanation : String
  details : RunShellCommand
deriving Repr, DecidableEq

/-- Extracts the line list from an output accessor's value, as
`RunShellCommandError.__init__` does by using `rscObj.stderr` directly (in
the raise path the monitor exists and the accessor yields a line list). -/
def pyLinesOf : Option (Except String PyOut) → List String
  | some (.ok (.pyList l)) => l
  | _ => []

/-- `RunShellCommandError.__init__` (lines 237-249): a timed-out command gets
a bare "timed out" message; a killed one gets the exit value; otherwise the
message carries the exit value and the last `STDERR_DISPLAY_CONTEXT` lines of
`rscObj.stderr` joined with spaces. -/
def mkRunShellCommandError (rscObj : RunShellCommand) : RunShellCommandError :=
  let rc := rscObj._returncode.getD 0
  let explanation := "RunShellCommand(): " ++
    (if rscObj._processTimedOut then
       "command " ++ rscObj.pyToString ++ " timed out"
     else if rscObj._processWasKilled then
       "command " ++ rscObj.pyToString ++ " killed; exit value: " ++ toString rc
     else
       "command " ++ rscObj.pyToString ++ " failed; exit value: " ++ toString rc ++
       ", partial stderr: " ++
       String.intercalate " " (lastSlice STDERR_DISPLAY_CONTEXT (pyLinesOf rscObj.stderr)))
  ⟨explanation, rscObj⟩

/-- The observable behaviour of one launched child process: its exit code,
the `time.time()` stamps taken at lines 668 and 716, and the sequence of
records the two drainer threads put on the shared queue, in arrival order. -/
structure ProcessBehavior where
  returncode : Int
  startTime : Int
  endTime : Int
  queue : List _OutputLineDesc
deriving Repr, DecidableEq

/-- The log-sink list `Run` assembles (lines 641-660): a stdout sink when a
logfile is configured (shared with stderr when `combineOutput`), and a
separate stderr sink when not combining and an error logfile is configured.
An empty-string logfile is falsy in Python and is modelled as `none`. -/
def buildLogDescs (rsc : RunShellCommand) : List _LogHandleDesc :=
  (match rsc._logfile with
   | some _ => ⟨PIPE_STDOUT, []⟩ :: (if rsc._combineOutput then [⟨PIPE_STDERR, []⟩] else [])
   | none => []) ++
  (if ¬ rsc._combineOutput ∧ rsc._errorLogfile.isSome then [⟨PIPE_STDERR, []⟩] else [])

/-- `Run` (lines 613-761) for a successfully launched process.  Notable
source facts kept by the model:
* line 687 constructs `_OutputQueueReader` without passing `storeBigOutput`,
  so the monitor always uses that parameter's default `True`, whatever the
  caller's `storeBigOutput` option was;
* the timeout heuristic (line 735) runs before `self._endTime` is assigned
  (line 753), so `self.runningtime` is still `None` there: under Python 2
  ordering the heuristic fires exactly when `self.timeout` is `None`;
* the error is raised (line 760) when `raiseErrors` and the return code is
  truthy, i.e. non-zero.
Returns the mutated object and the raised error, if any. -/
def RunShellCommand.Run (rsc : RunShellCommand) (pb : ProcessBehavior) (maxInMemLines : Nat) :
    RunShellCommand × Option RunShellCommandError :=
  let logDescs := buildLogDescs rsc
  let monitor := mkOutputQueueReader 2 logDescs true rsc._printOutput false maxInMemLines
  let loopResult := _OutputQueueReader.runLoop monitor 0 pb.queue
  let rsc1 := { rsc with _startTime := some pb.startTime, _outputMonitor := some loopResult.1 }
  let rsc2 := if py2GeOpt rsc1.runningtime rsc1._timeout then
      { rsc1 with _processWasKilled := true, _processTimedOut := true }
    else rsc1
  let rsc3 := { rsc2 with _endTime := some pb.endTime, _returncode := some pb.returncode }
  if rsc3._raiseErrors = true ∧ pb.returncode ≠ 0 then (rsc3, some (mkRunShellCommandError rsc3))
  else (rsc3, none)

/-!
## Proof infrastructure

`Interleaves l r q` says the queue content `q` is an order-preserving merge
of the two drainers' record sequences `l` and `r`: exactly the possible
arrival orders on the shared FIFO queue.
-/

inductive Interleaves : List _OutputLineDesc → List _OutputLineDesc → List _OutputLineDesc → Prop
  | nil : Interleaves [] [] []
  | left {a : _OutputLineDesc} {l r q : List _OutputLineDesc} :
      Interleaves l r q → Interleaves (a :: l) r (a :: q)
  | right {a : _OutputLineDesc} {l r q : List _OutputLineDesc} :
      Interleaves l r q → Interleaves l (a :: r) (a :: q)

theorem Interleaves.nil_nil {q : List _OutputLineDesc} (h : Interleaves [] [] q) : q = [] := by
  cases h
  rfl

theorem Interleaves.countP (p : _OutputLineDesc → Bool) {l r q : List _OutputLineDesc}
    (h : Interleaves l r q) : q.countP p = l.countP p + r.countP p := by
  induction h with
  | nil => rfl
  | left _ ih => simp [List.countP_cons, ih]; omega
  | right _ ih => simp [List.countP_cons, ih]; omega

/-- All records of the spill-file entries of type `t`, in append order: what a
`GetOutput` replay of the file keeps for that stream. -/
def fileRecs (st : _OutputQueueReader) (t : Nat) : List _OutputLineDesc :=
  ((st._bigOutputFile.getD []).filter (fun b => b.1 = t)).flatMap (fun b => b.2)

/-- Everything the reader has retained for stream `t`: spill-file records
followed by the in-memory list.  The central invariant of the `run` loop is
that this equals the stream's content records processed so far. -/
def retained (st : _OutputQueueReader) (t : Nat) : List _OutputLineDesc :=
  fileRecs st t ++ st._collectedOutput t

theorem collectedOutput_stdout (st : _OutputQueueReader) :
    st._collectedOutput PIPE_STDOUT = st._collectedStdout := rfl

theorem collectedOutput_stderr (st : _OutputQueueReader) :
    st._collectedOutput PIPE_STDERR = st._collectedStderr := by
  simp [_OutputQueueReader._collectedOutput, PIPE_STDOUT, PIPE_STDERR]

theorem flush_storeBigOutput (st : _OutputQueueReader) (t : Nat) :
    (st._FlushBigOutputToFile t)._storeBigOutput = st._storeBigOutput := by
  unfold _OutputQueueReader._FlushBigOutputToFile _OutputQueueReader.setCollected
  split
  · split <;> rfl
  · rfl

theorem flush_monitoredStreams (st : _OutputQueueReader) (t : Nat) :
    (st._FlushBigOutputToFile t)._monitoredStreams = st._monitoredStreams := by
  unfold _OutputQueueReader._FlushBigOutputToFile _OutputQueueReader.setCollected
  split
  · split <;> rfl
  · rfl

theorem flush_maxInMemLines (st : _OutputQueueReader) (t : Nat) :
    (st._FlushBigOutputToFile t)._maxInMemLines = st._maxInMemLines := by
  unfold _OutputQueueReader._FlushBigOutputToFile _OutputQueueReader.setCollected
  split
  · split <;> rfl
  · rfl

theorem flush_not_store {st : _OutputQueueReader} (hb : st._storeBigOutput = false) (t : Nat) :
    st._FlushBigOutputToFile t = st := by
  unfold _OutputQueueReader._FlushBigOutputToFile
  simp [hb]

theorem flush_file_isSome {st : _OutputQueueReader} (hb : st._storeBigOutput = true) (t : Nat) :
    (st._FlushBigOutputToFile t)._bigOutputFile.isSome = true := by
  unfold _OutputQueueReader._FlushBigOutputToFile _OutputQueueReader.setCollected
  simp [hb]

theorem flush_file_mono {st : _OutputQueueReader} (h : st._bigOutputFile.isSome = true) (t : Nat) :
    (st._FlushBigOutputToFile t)._bigOutputFile.isSome = true := by
  unfold _OutputQueueReader._FlushBigOutputToFile _OutputQueueReader.setCollected
  split
  · split <;> rfl
  · exact h

theorem flush_collected_self {st : _OutputQueueReader} (hb : st._storeBigOutput = true) (t : Nat) :
    (st._FlushBigOutputToFile t)._collectedOutput t = [] := by
  unfold _OutputQueueReader._FlushBigOutputToFile _OutputQueueReader.setCollected
   _OutputQueueReader._collectedOutput
  simp [hb]
  split <;> simp

theorem flush_collected_other (st : _OutputQueueReader) {t t' : Nat}
    (ht : t = PIPE_STDOUT ∨ t = PIPE_STDERR) (ht' : t' = PIPE_STDOUT ∨ t' = PIPE_STDERR)
    (hne : t ≠ t') :
    (st._FlushBigOutputToFile t)._collectedOutput t' = st._collectedOutput t' := by
  unfold _OutputQueueReader._FlushBigOutputToFile _OutputQueueReader.setCollected
   _OutputQueueReader._collectedOutput
  rcases ht with rfl | rfl <;> rcases ht' with rfl | rfl <;>
    simp [PIPE_STDOUT, PIPE_STDERR] at hne ⊢ <;> split <;> simp

theorem flush_retained {st : _OutputQueueReader} {t t' : Nat}
    (ht : t = PIPE_STDOUT ∨ t = PIPE_STDERR) (ht' : t' = PIPE_STDOUT ∨ t' = PIPE_STDERR) :
    retained (st._FlushBigOutputToFile t) t' = retained st t' := by
  by_cases hb : st._storeBigOutput
  · rcases ht with rfl | rfl <;> rcases ht' with rfl | rfl <;>
      cases hf : st._bigOutputFile <;>
      simp [retained, fileRecs, _OutputQueueReader._FlushBigOutputToFile,
        _OutputQueueReader.setCollected, _OutputQueueReader._collectedOutput,
        PIPE_STDOUT, PIPE_STDERR, hb, hf, List.filter_append, List.flatMap_append]
  · rw [flush_not_store (Bool.not_eq_true _ ▸ hb)]

theorem process_storeBigOutput (st : _OutputQueueReader) (lineDesc : _OutputLineDesc) (c : String) :
    (st.processLine lineDesc c)._storeBigOutput = st._storeBigOutput := by
  cases st with
  | mk p b sb ms lh cso cse bf mm pr =>
    unfold _OutputQueueReader.processLine
    unfold _OutputQueueReader._FlushBigOutputToFile
    unfold _OutputQueueReader.setCollected
    unfold _OutputQueueReader._collectedOutput
    dsimp only
    split_ifs <;> rfl

theorem process_monitoredStreams (st : _OutputQueueReader) (lineDesc : _OutputLineDesc) (c : String) :
    (st.processLine lineDesc c)._monitoredStreams = st._monitoredStreams := by
  cases st with
  | mk p b sb ms lh cso cse bf mm pr =>
    unfold _OutputQueueReader.processLine
    unfold _OutputQueueReader._FlushBigOutputToFile
    unfold _OutputQueueReader.setCollected
    unfold _OutputQueueReader._collectedOutput
    dsimp only
    split_ifs <;> rfl

theorem process_maxInMemLines (st : _OutputQueueReader) (lineDesc : _OutputLineDesc) (c : String) :
    (st.processLine lineDesc c)._maxInMemLines = st._maxInMemLines := by
  cases st with
  | mk p b sb ms lh cso cse bf mm pr =>
    unfold _OutputQueueReader.processLine
    unfold _OutputQueueReader._FlushBigOutputToFile
    unfold _OutputQueueReader.setCollected
    unfold _OutputQueueReader._collectedOutput
    dsimp only
    split_ifs <;> rfl

theorem process_file_mono {st : _OutputQueueReader} {lineDesc : _OutputLineDesc} {c : String}
    (h : st._bigOutputFile.isSome = true) :
    (st.processLine lineDesc c)._bigOutputFile.isSome = true := by
  cases st with
  | mk p b sb ms lh cso cse bf mm pr =>
    unfold _OutputQueueReader.processLine
    unfold _OutputQueueReader._FlushBigOutputToFile
    unfold _OutputQueueReader.setCollected
    unfold _OutputQueueReader._collectedOutput
    dsimp only
    simp only [Option.isSome] at h
    cases bf <;> simp at h <;> split_ifs <;> simp

theorem process_retained_self (st : _OutputQueueReader) (lineDesc : _OutputLineDesc) (c : String)
    (ht : lineDesc.type = PIPE_STDOUT ∨ lineDesc.type = PIPE_STDERR) :
    retained (st.processLine lineDesc c) lineDesc.type = retained st lineDesc.type ++ [lineDesc] := by
  cases st with
  | mk p b sb ms lh cso cse bf mm pr =>
    unfold _OutputQueueReader.processLine
    unfold _OutputQueueReader._FlushBigOutputToFile
    unfold _OutputQueueReader.setCollected
    rcases ht with h1 | h1 <;> rw [h1] <;> cases bf <;> dsimp only <;>
      split_ifs <;>
      simp_all [retained, fileRecs, _OutputQueueReader._collectedOutput,
        PIPE_STDOUT, PIPE_STDERR, List.filter_append, List.flatMap_append]

theorem process_retained_other (st : _OutputQueueReader) (lineDesc : _OutputLineDesc) (c : String)
    {t' : Nat} (ht : lineDesc.type = PIPE_STDOUT ∨ lineDesc.type = PIPE_STDERR)
    (ht' : t' = PIPE_STDOUT ∨ t' = PIPE_STDERR) (hne : lineDesc.type ≠ t') :
    retained (st.processLine lineDesc c) t' = retained st t' := by
  cases st with
  | mk p b sb ms lh cso cse bf mm pr =>
    unfold _OutputQueueReader.processLine
    unfold _OutputQueueReader._FlushBigOutputToFile
    unfold _OutputQueueReader.setCollected
    rcases ht with h1 | h1 <;> rcases ht' with h2 | h2 <;> rw [h1] at hne ⊢ <;>
      rw [h2] at hne ⊢ <;> try simp [PIPE_STDOUT, PIPE_STDERR] at hne
    all_goals
      cases bf <;> dsimp only <;> split_ifs <;>
        simp_all [retained, fileRecs, _OutputQueueReader._collectedOutput,
          PIPE_STDOUT, PIPE_STDERR, List.filter_append, List.flatMap_append]

theorem process_collected_other (st : _OutputQueueReader) (lineDesc : _OutputLineDesc) (c : String)
    {t' : Nat} (ht : lineDesc.type = PIPE_STDOUT ∨ lineDesc.type = PIPE_STDERR)
    (ht' : t' = PIPE_STDOUT ∨ t' = PIPE_STDERR) (hne : lineDesc.type ≠ t') :
    (st.processLine lineDesc c)._collectedOutput t' = st._collectedOutput t' := by
  cases st with
  | mk p b sb ms lh cso cse bf mm pr =>
    unfold _OutputQueueReader.processLine
    unfold _OutputQueueReader._FlushBigOutputToFile
    unfold _OutputQueueReader.setCollected
    rcases ht with h1 | h1 <;> rcases ht' with h2 | h2 <;> rw [h1] at hne ⊢ <;>
      rw [h2] at hne ⊢ <;> try simp [PIPE_STDOUT, PIPE_STDERR] at hne
    all_goals
      cases bf <;> dsimp only <;> split_ifs <;>
        simp_all [_OutputQueueReader._collectedOutput, PIPE_STDOUT, PIPE_STDERR]

theorem process_file_not_store {st : _OutputQueueReader} {lineDesc : _OutputLineDesc} {c : String}
    (hb : st._storeBigOutput = false) :
    (st.processLine lineDesc c)._bigOutputFile = st._bigOutputFile := by
  cases st with
  | mk p b sb ms lh cso cse bf mm pr =>
    have hb' : sb = false := hb
    subst hb'
    unfold _OutputQueueReader.processLine
    unfold _OutputQueueReader._FlushBigOutputToFile
    unfold _OutputQueueReader.setCollected
    unfold _OutputQueueReader._collectedOutput
    dsimp only
    split_ifs <;> simp_all

/-- The content records of a stream: correctly typed, none a sentinel. -/
def streamContentRecs (t : Nat) (cs : List _OutputLineDesc) : Prop :=
  ∀ r ∈ cs, r.type = t ∧ ∃ s, r.content = some s

/-- `StreamRem t rem cs`: the not-yet-consumed part `rem` of stream `t`'s
record sequence, contributing content records `cs`.  Either the stream is
dead (sentinel consumed, nothing left) or its remaining records are content
records followed by the sentinel. -/
def StreamRem (t : Nat) (rem cs : List _OutputLineDesc) : Prop :=
  (rem = [] ∧ cs = []) ∨
  (∃ tm, rem = cs ++ [⟨tm, t, none⟩] ∧ streamContentRecs t cs)

theorem StreamRem_nil {t : Nat} {cs : List _OutputLineDesc} (h : StreamRem t [] cs) : cs = [] := by
  rcases h with ⟨_, h⟩ | ⟨tm, h, _⟩
  · exact h
  · exact absurd h.symm (by simp)

/-- Master invariant of the aggregator loop, by induction over the queue
interleaving: started with death count matching the number of already-dead
streams, the loop consumes exactly the whole queue, ends with death count
equal to the number of monitored streams, appends each stream's content
records to that stream's retained data, and (when spilling is enabled) ends
with both in-memory lists flushed into the existing spill file. -/
theorem runLoop_master {rem1 rem2 q : List _OutputLineDesc}
    (hI : Interleaves rem1 rem2 q) :
    ∀ (cs1 cs2 : List _OutputLineDesc) (st : _OutputQueueReader) (dc : Nat),
    StreamRem PIPE_STDOUT rem1 cs1 →
    StreamRem PIPE_STDERR rem2 cs2 →
    st._monitoredStreams = 2 →
    dc = (if rem1 = [] then 1 else 0) + (if rem2 = [] then 1 else 0) →
    (st._storeBigOutput = true →
      (rem1 = [] → st._collectedStdout = [] ∧ st._bigOutputFile.isSome = true) ∧
      (rem2 = [] → st._collectedStderr = [] ∧ st._bigOutputFile.isSome = true)) →
    ((st.runLoop dc q).2.2 = [] ∧
     (st.runLoop dc q).2.1 = 2 ∧
     retained (st.runLoop dc q).1 PIPE_STDOUT = retained st PIPE_STDOUT ++ cs1 ∧
     retained (st.runLoop dc q).1 PIPE_STDERR = retained st PIPE_STDERR ++ cs2 ∧
     (st.runLoop dc q).1._storeBigOutput = st._storeBigOutput ∧
     (st._storeBigOutput = true →
       (st.runLoop dc q).1._collectedStdout = [] ∧
       (st.runLoop dc q).1._collectedStderr = [] ∧
       (st.runLoop dc q).1._bigOutputFile.isSome = true) ∧
     (st._storeBigOutput = false →
       (st.runLoop dc q).1._bigOutputFile = st._bigOutputFile)) := by
  induction hI with
  | nil =>
    intro cs1 cs2 st dc h1 h2 hmon hdc hinv
    have hc1 := StreamRem_nil h1
    have hc2 := StreamRem_nil h2
    subst hc1
    subst hc2
    simp only [_OutputQueueReader.runLoop]
    refine ⟨by trivial, by simpa using hdc, by simp, by simp, by trivial, ?_,
      by intro _; trivial⟩
    intro hb
    obtain ⟨ha1, hbf⟩ := (hinv hb).1 rfl
    obtain ⟨ha2, _⟩ := (hinv hb).2 rfl
    exact ⟨ha1, ha2, hbf⟩
  | @left a l r q hI' ih =>
    intro cs1 cs2 st dc h1 h2 hmon hdc hinv
    rcases h1 with ⟨hn, _⟩ | ⟨tm, heq, hrecs⟩
    · exact absurd hn (by simp)
    cases cs1 with
    | nil =>
      simp only [List.nil_append] at heq
      injection heq with ha hl
      subst ha
      subst hl
      simp only [_OutputQueueReader.runLoop]
      rw [flush_monitoredStreams, hmon]
      by_cases hr : r = []
      · have hdc1 : dc = 1 := by simpa [hr] using hdc
        subst hdc1
        have hq : q = [] := by
          subst hr
          exact hI'.nil_nil
        subst hq
        have hcs2 : cs2 = [] := by
          subst hr
          exact StreamRem_nil h2
        subst hcs2
        rw [if_pos (show (1 : Nat) + 1 = 2 from rfl)]
        refine ⟨rfl, rfl, ?_, ?_, flush_storeBigOutput st _, ?_, ?_⟩
        · rw [flush_retained (Or.inl rfl) (Or.inl rfl)]
          simp
        · rw [flush_retained (Or.inl rfl) (Or.inr rfl)]
          simp
        · intro hb
          refine ⟨?_, ?_, flush_file_isSome hb _⟩
          · have h0 := flush_collected_self hb PIPE_STDOUT
            rwa [collectedOutput_stdout] at h0
          · have h0 := flush_collected_other st (Or.inl rfl) (Or.inr rfl)
              (by simp [PIPE_STDOUT, PIPE_STDERR])
            rw [collectedOutput_stderr, collectedOutput_stderr] at h0
            rw [h0]
            exact ((hinv hb).2 hr).1
        · intro hb
          rw [flush_not_store hb]
      · have hdc0 : dc = 0 := by simpa [hr] using hdc
        subst hdc0
        rw [if_neg (show ¬((0 : Nat) + 1 = 2) from by omega)]
        have hIH := ih [] cs2 (st._FlushBigOutputToFile PIPE_STDOUT) 1
          (Or.inl ⟨rfl, rfl⟩) h2
          (by rw [flush_monitoredStreams]; exact hmon)
          (by simp [hr])
          (by
            intro hb
            rw [flush_storeBigOutput] at hb
            refine ⟨fun _ => ⟨?_, flush_file_isSome hb _⟩, fun hr' => absurd hr' hr⟩
            have h0 := flush_collected_self hb PIPE_STDOUT
            rwa [collectedOutput_stdout] at h0)
        obtain ⟨i1, i2, i3, i4, i5, i6, i7⟩ := hIH
        rw [flush_retained (Or.inl rfl) (Or.inl rfl)] at i3
        rw [flush_retained (Or.inl rfl) (Or.inr rfl)] at i4
        rw [flush_storeBigOutput] at i5
        refine ⟨i1, i2, by simpa using i3, i4, i5, ?_, ?_⟩
        · intro hb
          exact i6 (by rw [flush_storeBigOutput]; exact hb)
        · intro hb
          rw [i7 (by rw [flush_storeBigOutput]; exact hb), flush_not_store hb]
    | cons rc cs1' =>
      rw [List.cons_append] at heq
      injection heq with ha hl
      subst ha
      subst hl
      obtain ⟨hty, s, hcon⟩ := hrecs a (by simp)
      simp only [_OutputQueueReader.runLoop, hcon]
      have hIH := ih cs1' cs2 (st.processLine a s) dc
        (Or.inr ⟨tm, rfl, fun x hx => hrecs x (by simp [hx])⟩) h2
        (by rw [process_monitoredStreams]; exact hmon)
        (by simpa using hdc)
        (by
          intro hb
          rw [process_storeBigOutput] at hb
          refine ⟨fun h' => absurd h' (by simp), fun hr' => ?_⟩
          obtain ⟨hc2, hf2⟩ := (hinv hb).2 hr'
          refine ⟨?_, process_file_mono hf2⟩
          have h0 := process_collected_other st a s (Or.inl hty) (Or.inr rfl)
            (by rw [hty]; simp [PIPE_STDOUT, PIPE_STDERR])
          rw [collectedOutput_stderr, collectedOutput_stderr] at h0
          rw [h0]
          exact hc2)
      obtain ⟨i1, i2, i3, i4, i5, i6, i7⟩ := hIH
      have hself := process_retained_self st a s (Or.inl hty)
      rw [hty] at hself
      rw [hself] at i3
      have hother := process_retained_other st a s (Or.inl hty) (Or.inr rfl)
        (by rw [hty]; simp [PIPE_STDOUT, PIPE_STDERR])
      rw [hother] at i4
      rw [process_storeBigOutput] at i5
      refine ⟨i1, i2, by simpa using i3, i4, i5, ?_, ?_⟩
      · intro hb
        exact i6 (by rw [process_storeBigOutput]; exact hb)
      · intro hb
        rw [i7 (by rw [process_storeBigOutput]; exact hb), process_file_not_store hb]
  | @right a l r q hI' ih =>
    intro cs1 cs2 st dc h1 h2 hmon hdc hinv
    rcases h2 with ⟨hn, _⟩ | ⟨tm, heq, hrecs⟩
    · exact absurd hn (by simp)
    cases cs2 with
    | nil =>
      simp only [List.nil_append] at heq
      injection heq with ha hl
      subst ha
      subst hl
      simp only [_OutputQueueReader.runLoop]
      rw [flush_monitoredStreams, hmon]
      by_cases hr : l = []
      · have hdc1 : dc = 1 := by simpa [hr] using hdc
        subst hdc1
        have hq : q = [] := by
          subst hr
          exact hI'.nil_nil
        subst hq
        have hcs1 : cs1 = [] := by
          subst hr
          exact StreamRem_nil h1
        subst hcs1
        rw [if_pos (show (1 : Nat) + 1 = 2 from rfl)]
        refine ⟨rfl, rfl, ?_, ?_, flush_storeBigOutput st _, ?_, ?_⟩
        · rw [flush_retained (Or.inr rfl) (Or.inl rfl)]
          simp
        · rw [flush_retained (Or.inr rfl) (Or.inr rfl)]
          simp
        · intro hb
          refine ⟨?_, ?_, flush_file_isSome hb _⟩
          · have h0 := flush_collected_other st (Or.inr rfl) (Or.inl rfl)
              (by simp [PIPE_STDOUT, PIPE_STDERR])
            rw [collectedOutput_stdout, collectedOutput_stdout] at h0
            rw [h0]
            exact ((hinv hb).1 hr).1
          · have h0 := flush_collected_self hb PIPE_STDERR
            rwa [collectedOutput_stderr] at h0
        · intro hb
          rw [flush_not_store hb]
      · have hdc0 : dc = 0 := by simpa [hr] using hdc
        subst hdc0
        rw [if_neg (show ¬((0 : Nat) + 1 = 2) from by omega)]
        have hIH := ih cs1 [] (st._FlushBigOutputToFile PIPE_STDERR) 1
          h1 (Or.inl ⟨rfl, rfl⟩)
          (by rw [flush_monitoredStreams]; exact hmon)
          (by simp [hr])
          (by
            intro hb
            rw [flush_storeBigOutput] at hb
            refine ⟨fun hr' => absurd hr' hr, fun _ => ⟨?_, flush_file_isSome hb _⟩⟩
            have h0 := flush_collected_self hb PIPE_STDERR
            rwa [collectedOutput_stderr] at h0)
        obtain ⟨i1, i2, i3, i4, i5, i6, i7⟩ := hIH
        rw [flush_retained (Or.inr rfl) (Or.inl rfl)] at i3
        rw [flush_retained (Or.inr rfl) (Or.inr rfl)] at i4
        rw [flush_storeBigOutput] at i5
        refine ⟨i1, i2, i3, by simpa using i4, i5, ?_, ?_⟩
        · intro hb
          exact i6 (by rw [flush_storeBigOutput]; exact hb)
        · intro hb
          rw [i7 (by rw [flush_storeBigOutput]; exact hb), flush_not_store hb]
    | cons rc cs2' =>
      rw [List.cons_append] at heq
      injection heq with ha hl
      subst ha
      subst hl
      obtain ⟨hty, s, hcon⟩ := hrecs a (by simp)
      simp only [_OutputQueueReader.runLoop, hcon]
      have hIH := ih cs1 cs2' (st.processLine a s) dc
        h1 (Or.inr ⟨tm, rfl, fun x hx => hrecs x (by simp [hx])⟩)
        (by rw [process_monitoredStreams]; exact hmon)
        (by simpa using hdc)
        (by
          intro hb
          rw [process_storeBigOutput] at hb
          refine ⟨fun hr' => ?_, fun h' => absurd h' (by simp)⟩
          obtain ⟨hc1, hf1⟩ := (hinv hb).1 hr'
          refine ⟨?_, process_file_mono hf1⟩
          have h0 := process_collected_other st a s (Or.inr hty) (Or.inl rfl)
            (by rw [hty]; simp [PIPE_STDOUT, PIPE_STDERR])
          rw [collectedOutput_stdout, collectedOutput_stdout] at h0
          rw [h0]
          exact hc1)
      obtain ⟨i1, i2, i3, i4, i5, i6, i7⟩ := hIH
      have hself := process_retained_self st a s (Or.inr hty)
      rw [hty] at hself
      rw [hself] at i4
      have hother := process_retained_other st a s (Or.inr hty) (Or.inl rfl)
        (by rw [hty]; simp [PIPE_STDOUT, PIPE_STDERR])
      rw [hother] at i3
      rw [process_storeBigOutput] at i5
      refine ⟨i1, i2, i3, by simpa using i4, i5, ?_, ?_⟩
      · intro hb
        exact i6 (by rw [process_storeBigOutput]; exact hb)
      · intro hb
        rw [i7 (by rw [process_storeBigOutput]; exact hb), process_file_not_store hb]

theorem streamContentRecs_stampRecords (t : Nat) (ts : Nat → Nat) (i : Nat) (ls : List String) :
    streamContentRecs t (stampRecords t ts i ls) := by
  induction ls generalizing i with
  | nil => intro r hr; simp [stampRecords] at hr
  | cons l rest ih =>
    intro r hr
    simp only [stampRecords, List.mem_cons] at hr
    rcases hr with rfl | hr
    · exact ⟨rfl, l, rfl⟩
    · exact ih (i + 1) r hr

theorem StreamRem_EnqueueOutput (lines : List String) (t : Nat) (ts : Nat → Nat) :
    StreamRem t (_EnqueueOutput lines t ts) (stampRecords t ts 0 lines) :=
  Or.inr ⟨ts lines.length, rfl, streamContentRecs_stampRecords t ts 0 lines⟩

theorem stampRecords_contents (t : Nat) (ts : Nat → Nat) (i : Nat) (ls : List String) :
    (stampRecords t ts i ls).map (fun r => r.content.getD "") = ls := by
  induction ls generalizing i with
  | nil => rfl
  | cons l rest ih => simp [stampRecords, ih]

theorem stampRecords_map_rle (t : Nat) (ts : Nat → Nat) (i : Nat) (ls : List String) :
    (stampRecords t ts i ls).map (fun r => REMOVE_LINE_ENDING (r.content.getD "")) =
      ls.map REMOVE_LINE_ENDING := by
  induction ls generalizing i with
  | nil => rfl
  | cons l rest ih => simp [stampRecords, ih]

theorem stampRecords_countP_none (t : Nat) (ts : Nat → Nat) (i : Nat) (ls : List String) :
    (stampRecords t ts i ls).countP (fun r => r.content.isNone) = 0 := by
  induction ls generalizing i with
  | nil => rfl
  | cons l rest ih => simp [stampRecords, List.countP_cons, ih]

theorem EnqueueOutput_countP_none (lines : List String) (t : Nat) (ts : Nat → Nat) :
    (_EnqueueOutput lines t ts).countP (fun r => r.content.isNone) = 1 := by
  simp [_EnqueueOutput, List.countP_append, stampRecords_countP_none, List.countP_cons]

theorem EnqueueOutput_ne_nil (lines : List String) (t : Nat) (ts : Nat → Nat) :
    _EnqueueOutput lines t ts ≠ [] := by
  simp [_EnqueueOutput]

/-- `GetOutput` returns exactly the retained data of the requested stream,
line-ending-stripped in the line-oriented form and raw-concatenated in the raw
form, provided that whenever the spill file exists, that stream's in-memory
list is empty (which holds at the end of every run with spilling enabled,
because a stream's sentinel flushes its remaining batch). -/
theorem GetOutput_retained (st : _OutputQueueReader) {t : Nat}
    (ht : t = PIPE_STDOUT ∨ t = PIPE_STDERR)
    (hc : st._bigOutputFile.isSome = true → st._collectedOutput t = []) :
    st.GetOutput t false =
      .ok (.pyList ((retained st t).map (fun x => REMOVE_LINE_ENDING (x.content.getD "")))) ∧
    st.GetOutput t true =
      .ok (.pyStr (String.join ((retained st t).map (fun x => x.content.getD "")))) := by
  cases hf : st._bigOutputFile with
  | none =>
    rcases ht with rfl | rfl <;>
      constructor <;>
        simp [_OutputQueueReader.GetOutput, retained, fileRecs, hf,
          _OutputQueueReader._collectedOutput, PIPE_STDOUT, PIPE_STDERR]
  | some batches =>
    have hcoll := hc (by rw [hf]; rfl)
    rcases ht with rfl | rfl
    · have hcoll' : st._collectedOutput 1 = [] := hcoll
      constructor <;>
        simp [_OutputQueueReader.GetOutput, retained, fileRecs, hf, hcoll, hcoll',
          PIPE_STDOUT, PIPE_STDERR, List.map_flatMap]
    · have hcoll' : st._collectedOutput 2 = [] := hcoll
      constructor <;>
        simp [_OutputQueueReader.GetOutput, retained, fileRecs, hf, hcoll, hcoll',
          PIPE_STDOUT, PIPE_STDERR, List.map_flatMap]

/-- Full characterization of one run of the aggregator over any interleaving
of the two drainers' outputs, for any monitor configuration: the loop
consumes the whole queue with death count 2, and every output query returns
exactly that stream's lines (stripped, in order) or their raw
concatenation. -/
theorem runLoop_canonical (lines1 lines2 : List String) (ts1 ts2 : Nat → Nat)
    (q : List _OutputLineDesc) (ld : List _LogHandleDesc) (b p buf : Bool) (m : Nat)
    (hI : Interleaves (_EnqueueOutput lines1 PIPE_STDOUT ts1)
      (_EnqueueOutput lines2 PIPE_STDERR ts2) q) :
    ((mkOutputQueueReader 2 ld b p buf m).runLoop 0 q).2.2 = [] ∧
    ((mkOutputQueueReader 2 ld b p buf m).runLoop 0 q).2.1 = 2 ∧
    ((mkOutputQueueReader 2 ld b p buf m).runLoop 0 q).1.GetOutput PIPE_STDOUT false =
      .ok (.pyList (lines1.map REMOVE_LINE_ENDING)) ∧
    ((mkOutputQueueReader 2 ld b p buf m).runLoop 0 q).1.GetOutput PIPE_STDOUT true =
      .ok (.pyStr (String.join lines1)) ∧
    ((mkOutputQueueReader 2 ld b p buf m).runLoop 0 q).1.GetOutput PIPE_STDERR false =
      .ok (.pyList (lines2.map REMOVE_LINE_ENDING)) ∧
    ((mkOutputQueueReader 2 ld b p buf m).runLoop 0 q).1.GetOutput PIPE_STDERR true =
      .ok (.pyStr (String.join lines2)) ∧
    (b = false → ((mkOutputQueueReader 2 ld b p buf m).runLoop 0 q).1._bigOutputFile = none) ∧
    (b = true →
      ((mkOutputQueueReader 2 ld b p buf m).runLoop 0 q).1._bigOutputFile.isSome = true) := by
  have hM := runLoop_master hI (stampRecords PIPE_STDOUT ts1 0 lines1)
    (stampRecords PIPE_STDERR ts2 0 lines2)
    (mkOutputQueueReader 2 ld b p buf m) 0
    (StreamRem_EnqueueOutput lines1 PIPE_STDOUT ts1)
    (StreamRem_EnqueueOutput lines2 PIPE_STDERR ts2)
    rfl
    (by simp [EnqueueOutput_ne_nil])
    (by
      intro _
      exact ⟨fun h => absurd h (EnqueueOutput_ne_nil _ _ _),
             fun h => absurd h (EnqueueOutput_ne_nil _ _ _)⟩)
  obtain ⟨i1, i2, i3, i4, i5, i6, i7⟩ := hM
  have hret0 : retained (mkOutputQueueReader 2 ld b p buf m) PIPE_STDOUT = [] := by
    simp [retained, fileRecs, mkOutputQueueReader, _OutputQueueReader._collectedOutput]
  have hret0' : retained (mkOutputQueueReader 2 ld b p buf m) PIPE_STDERR = [] := by
    simp [retained, fileRecs, mkOutputQueueReader, _OutputQueueReader._collectedOutput]
  rw [hret0, List.nil_append] at i3
  rw [hret0', List.nil_append] at i4
  have hb0 : (mkOutputQueueReader 2 ld b p buf m)._storeBigOutput = b := rfl
  rw [hb0] at i5 i6 i7
  have hc1 : (((mkOutputQueueReader 2 ld b p buf m).runLoop 0 q).1)._bigOutputFile.isSome = true →
      (((mkOutputQueueReader 2 ld b p buf m).runLoop 0 q).1)._collectedOutput PIPE_STDOUT = [] := by
    intro hs
    by_cases hbb : b = true
    · rw [collectedOutput_stdout]; exact (i6 hbb).1
    · have hbf : b = false := by revert hbb; cases b <;> simp
      rw [i7 hbf] at hs
      simp [mkOutputQueueReader] at hs
  have hc2 : (((mkOutputQueueReader 2 ld b p buf m).runLoop 0 q).1)._bigOutputFile.isSome = true →
      (((mkOutputQueueReader 2 ld b p buf m).runLoop 0 q).1)._collectedOutput PIPE_STDERR = [] := by
    intro hs
    by_cases hbb : b = true
    · rw [collectedOutput_stderr]; exact (i6 hbb).2.1
    · have hbf : b = false := by revert hbb; cases b <;> simp
      rw [i7 hbf] at hs
      simp [mkOutputQueueReader] at hs
  obtain ⟨g1, g2⟩ := GetOutput_retained _ (Or.inl rfl) hc1
  obtain ⟨g3, g4⟩ := GetOutput_retained _ (Or.inr rfl) hc2
  rw [i3, stampRecords_map_rle] at g1
  rw [i3, stampRecords_contents] at g2
  rw [i4, stampRecords_map_rle] at g3
  rw [i4, stampRecords_contents] at g4
  refine ⟨i1, i2, g1, g2, g3, g4, ?_, fun hbb => (i6 hbb).2.2⟩
  intro hbb
  rw [i7 hbb]
  rfl

theorem py2GeOpt_none_right (x : Option Int) : py2GeOpt x none = true := by
  cases x <;> rfl

theorem py2GeOpt_none_some (n : Int) : py2GeOpt none (some n) = false := rfl

/-- `Run` installs as output monitor exactly the final state of the loop over
the queue, run on a reader built with `storeBigOutput` left at its default
`true` (line 687 does not forward the option). -/
theorem Run_monitor (rsc : RunShellCommand) (pb : ProcessBehavior) (m : Nat) :
    (rsc.Run pb m).1._outputMonitor =
      some ((mkOutputQueueReader 2 (buildLogDescs rsc) true rsc._printOutput false m).runLoop
        0 pb.queue).1 := by
  unfold RunShellCommand.Run
  dsimp only
  split <;> split <;> rfl

theorem Run_returncode (rsc : RunShellCommand) (pb : ProcessBehavior) (m : Nat) :
    (rsc.Run pb m).1._returncode = some pb.returncode := by
  unfold RunShellCommand.Run
  dsimp only
  split <;> split <;> rfl

theorem runningtime_update_none {rsc : RunShellCommand} (hend : rsc._endTime = none)
    {s : Int} {mon : Option _OutputQueueReader} :
    ({ rsc with _startTime := some s, _outputMonitor := mon } : RunShellCommand).runningtime =
      none := by
  unfold RunShellCommand.runningtime
  dsimp only
  rw [hend]

/-- C9 (claim): with `timeout=None` the heuristic at line 735 compares with
Python 2 `None >= None`, which is true, so both flags are set whatever the
process did. -/
theorem claims_C9 (rsc : RunShellCommand) (pb : ProcessBehavior) (m : Nat)
    (ht : rsc._timeout = none) :
    (rsc.Run pb m).1._processWasKilled = true ∧
    (rsc.Run pb m).1._processTimedOut = true := by
  unfold RunShellCommand.Run
  dsimp only
  rw [ht, py2GeOpt_none_right, if_pos rfl]
  split <;> exact ⟨rfl, rfl⟩

/-- C2 (claim): a command writing exactly N lines to stdout yields a `stdout`
accessor value of exactly N entries, in pipe-read order, each with its line
ending stripped, for every interleaving with stderr and every retention
threshold. -/
theorem claims_C2 (rsc : RunShellCommand) (pb : ProcessBehavior) (m : Nat)
    (outLines errLines : List String) (ts1 ts2 : Nat → Nat)
    (hI : Interleaves (_EnqueueOutput outLines PIPE_STDOUT ts1)
      (_EnqueueOutput errLines PIPE_STDERR ts2) pb.queue) :
    (rsc.Run pb m).1.stdout = some (.ok (.pyList (outLines.map REMOVE_LINE_ENDING))) ∧
    (outLines.map REMOVE_LINE_ENDING).length = outLines.length := by
  have hmon := Run_monitor rsc pb m
  have hc := runLoop_canonical outLines errLines ts1 ts2 pb.queue (buildLogDescs rsc) true
    rsc._printOutput false m hI
  constructor
  · unfold RunShellCommand.stdout RunShellCommand._GetOutputFromMonitor
    rw [hmon]
    exact congrArg some hc.2.2.1
  · simp

/-- C3 (claim): two aggregator runs over the same queue agree on every output
query, whatever their spill settings and retention thresholds — in
particular, a disk-spilled run returns byte-identical results to a purely
in-memory run (`storeBigOutput = false`), and to a run whose threshold is
never crossed. -/
theorem claims_C3 (outLines errLines : List String) (ts1 ts2 : Nat → Nat)
    (q : List _OutputLineDesc) (ld1 ld2 : List _LogHandleDesc)
    (b1 b2 p1 p2 buf1 buf2 : Bool) (m1 m2 : Nat) (t : Nat) (raw : Bool)
    (hI : Interleaves (_EnqueueOutput outLines PIPE_STDOUT ts1)
      (_EnqueueOutput errLines PIPE_STDERR ts2) q)
    (ht : t = PIPE_STDOUT ∨ t = PIPE_STDERR) :
    ((mkOutputQueueReader 2 ld1 b1 p1 buf1 m1).runLoop 0 q).1.GetOutput t raw =
    ((mkOutputQueueReader 2 ld2 b2 p2 buf2 m2).runLoop 0 q).1.GetOutput t raw := by
  have h1 := runLoop_canonical outLines errLines ts1 ts2 q ld1 b1 p1 buf1 m1 hI
  have h2 := runLoop_canonical outLines errLines ts1 ts2 q ld2 b2 p2 buf2 m2 hI
  rcases ht with rfl | rfl <;> cases raw
  · rw [h1.2.2.1, h2.2.2.1]
  · rw [h1.2.2.2.1, h2.2.2.2.1]
  · rw [h1.2.2.2.2.1, h2.2.2.2.2.1]
  · rw [h1.2.2.2.2.2.1, h2.2.2.2.2.2.1]

/-- C5 (claim): each drainer enqueues exactly one sentinel, after all of its
content records; a full queue carries exactly two sentinels; the aggregator
loop's death count — bumped only on sentinels — ends equal to the number of
monitored streams, and the loop stops exactly at the end of the queue in
every interleaving. -/
theorem claims_C5 (outLines errLines : List String) (ts1 ts2 : Nat → Nat)
    (q : List _OutputLineDesc) (ld : List _LogHandleDesc) (b p buf : Bool) (m : Nat)
    (hI : Interleaves (_EnqueueOutput outLines PIPE_STDOUT ts1)
      (_EnqueueOutput errLines PIPE_STDERR ts2) q) :
    (_EnqueueOutput outLines PIPE_STDOUT ts1).countP (fun r => r.content.isNone) = 1 ∧
    (_EnqueueOutput outLines PIPE_STDOUT ts1).getLast? =
      some ⟨ts1 outLines.length, PIPE_STDOUT, none⟩ ∧
    (_EnqueueOutput errLines PIPE_STDERR ts2).countP (fun r => r.content.isNone) = 1 ∧
    (_EnqueueOutput errLines PIPE_STDERR ts2).getLast? =
      some ⟨ts2 errLines.length, PIPE_STDERR, none⟩ ∧
    q.countP (fun r => r.content.isNone) = 2 ∧
    ((mkOutputQueueReader 2 ld b p buf m).runLoop 0 q).2.1 =
      (mkOutputQueueReader 2 ld b p buf m)._monitoredStreams ∧
    ((mkOutputQueueReader 2 ld b p buf m).runLoop 0 q).2.1 =
      q.countP (fun r => r.content.isNone) ∧
    ((mkOutputQueueReader 2 ld b p buf m).runLoop 0 q).2.2 = [] := by
  have hc := runLoop_canonical outLines errLines ts1 ts2 q ld b p buf m hI
  have hq2 : q.countP (fun r => r.content.isNone) = 2 := by
    rw [hI.countP (fun r => r.content.isNone), EnqueueOutput_countP_none,
      EnqueueOutput_countP_none]
  refine ⟨EnqueueOutput_countP_none _ _ _, ?_, EnqueueOutput_countP_none _ _ _, ?_, hq2,
    ?_, ?_, hc.1⟩
  · unfold _EnqueueOutput
    exact List.getLast?_concat _
  · unfold _EnqueueOutput
    exact List.getLast?_concat _
  · exact hc.2.1
  · rw [hq2]
    exact hc.2.1

/-- C6 (claim): on a completed run's reader state, an output query is
idempotent: two successive calls return identical content, neither call
changes the reader state, and the value read is a real result (`ok`), whether
the output is memory- or disk-backed. -/
theorem claims_C6 (outLines errLines : List String) (ts1 ts2 : Nat → Nat)
    (q : List _OutputLineDesc) (ld : List _LogHandleDesc) (b p buf : Bool) (m : Nat)
    (t : Nat) (raw : Bool)
    (hI : Interleaves (_EnqueueOutput outLines PIPE_STDOUT ts1)
      (_EnqueueOutput errLines PIPE_STDERR ts2) q)
    (ht : t = PIPE_STDOUT ∨ t = PIPE_STDERR) :
    ((((mkOutputQueueReader 2 ld b p buf m).runLoop 0 q).1.GetOutputM t raw).2.GetOutputM
        t raw).1 =
      (((mkOutputQueueReader 2 ld b p buf m).runLoop 0 q).1.GetOutputM t raw).1 ∧
    (((mkOutputQueueReader 2 ld b p buf m).runLoop 0 q).1.GetOutputM t raw).2 =
      ((mkOutputQueueReader 2 ld b p buf m).runLoop 0 q).1 ∧
    ((((mkOutputQueueReader 2 ld b p buf m).runLoop 0 q).1.GetOutputM t raw).2.GetOutputM
        t raw).2 =
      ((mkOutputQueueReader 2 ld b p buf m).runLoop 0 q).1 ∧
    (((mkOutputQueueReader 2 ld b p buf m).runLoop 0 q).1.GetOutputM t raw).1.isOk = true := by
  have hc := runLoop_canonical outLines errLines ts1 ts2 q ld b p buf m hI
  refine ⟨rfl, rfl, rfl, ?_⟩
  unfold _OutputQueueReader.GetOutputM
  rcases ht with rfl | rfl <;> cases raw
  · rw [hc.2.2.1]; rfl
  · rw [hc.2.2.2.1]; rfl
  · rw [hc.2.2.2.2.1]; rfl
  · rw [hc.2.2.2.2.2.1]; rfl

/-- With a numeric timeout and no end time recorded yet (the state of every
fresh command object), the heuristic at line 735 compares `None >= number`,
which is false in Python 2, so `Run` leaves the killed/timed-out flags
untouched. -/
theorem Run_flags_of_some_timeout (rsc : RunShellCommand) (pb : ProcessBehavior) (m : Nat)
    (hend : rsc._endTime = none) {n : Int} (ht : rsc._timeout = some n) :
    (rsc.Run pb m).1._processWasKilled = rsc._processWasKilled ∧
    (rsc.Run pb m).1._processTimedOut = rsc._processTimedOut ∧
    (rsc.Run pb m).2 = (if rsc._raiseErrors = true ∧ pb.returncode ≠ 0 then
      some (mkRunShellCommandError (rsc.Run pb m).1) else none) := by
  unfold RunShellCommand.Run
  dsimp only
  rw [runningtime_update_none hend, ht, py2GeOpt_none_some,
    if_neg (by simp : ¬((false : Bool) = true))]
  split <;> exact ⟨rfl, rfl, rfl⟩

/-- The display string is unchanged by `Run` (it reads only `_execArray`,
`str__separator` and `str__decorate`). -/
theorem Run_pyToString (rsc : RunShellCommand) (pb : ProcessBehavior) (m : Nat) :
    (rsc.Run pb m).1.pyToString = rsc.pyToString := by
  unfold RunShellCommand.Run RunShellCommand.pyToString
  dsimp only
  split <;> split <;> rfl

theorem Run_stderr_lines (rsc : RunShellCommand) (pb : ProcessBehavior) (m : Nat)
    (outLines errLines : List String) (ts1 ts2 : Nat → Nat)
    (hI : Interleaves (_EnqueueOutput outLines PIPE_STDOUT ts1)
      (_EnqueueOutput errLines PIPE_STDERR ts2) pb.queue) :
    (rsc.Run pb m).1.stderr = some (.ok (.pyList (errLines.map REMOVE_LINE_ENDING))) := by
  have hmon := Run_monitor rsc pb m
  have hc := runLoop_canonical outLines errLines ts1 ts2 pb.queue (buildLogDescs rsc) true
    rsc._printOutput false m hI
  unfold RunShellCommand.stderr RunShellCommand._GetOutputFromMonitor
  rw [hmon]
  exact congrArg some hc.2.2.2.2.1

/-- C1 (amended): for every command with a numeric (non-`None`) timeout and
`raiseErrors`, `Run` returns normally exactly when the process exits 0; on a
non-zero exit it raises a `RunShellCommandError` whose attached result
reports exactly the process's return code and whose explanation carries the
last 5 lines of the captured stderr.  (The claim's unrestricted form fails
when `timeout=None`: see the counterexample.) -/
theorem claims_C1_amended (rsc : RunShellCommand) (pb : ProcessBehavior) (m : Nat)
    (outLines errLines : List String) (ts1 ts2 : Nat → Nat)
    (hI : Interleaves (_EnqueueOutput outLines PIPE_STDOUT ts1)
      (_EnqueueOutput errLines PIPE_STDERR ts2) pb.queue)
    (hraise : rsc._raiseErrors = true)
    (hend : rsc._endTime = none)
    (hkill : rsc._processWasKilled = false)
    (htimed : rsc._processTimedOut = false)
    (n : Int) (htimeout : rsc._timeout = some n) :
    (pb.returncode = 0 → (rsc.Run pb m).2 = none) ∧
    (pb.returncode ≠ 0 →
      ∃ err, (rsc.Run pb m).2 = some err ∧
        err.details._returncode = some pb.returncode ∧
        err.explanation = "RunShellCommand(): command " ++ rsc.pyToString ++
          " failed; exit value: " ++ toString pb.returncode ++ ", partial stderr: " ++
          String.intercalate " "
            (lastSlice STDERR_DISPLAY_CONTEXT (errLines.map REMOVE_LINE_ENDING))) := by
  obtain ⟨hk, htd, herr⟩ := Run_flags_of_some_timeout rsc pb m hend htimeout
  constructor
  · intro h0
    rw [herr, if_neg]
    intro hcontra
    exact hcontra.2 h0
  · intro hnz
    refine ⟨mkRunShellCommandError (rsc.Run pb m).1, ?_, ?_, ?_⟩
    · rw [herr, if_pos ⟨hraise, hnz⟩]
    · show (rsc.Run pb m).1._returncode = some pb.returncode
      exact Run_returncode rsc pb m
    · show (mkRunShellCommandError (rsc.Run pb m).1).explanation = _
      unfold mkRunShellCommandError
      dsimp only
      rw [htd.trans htimed, hk.trans hkill,
        if_neg (by simp : ¬((false : Bool) = true)),
        if_neg (by simp : ¬((false : Bool) = true)),
        Run_returncode rsc pb m, Run_pyToString rsc pb m,
        Run_stderr_lines rsc pb m outLines errLines ts1 ts2 hI]
      simp [pyLinesOf, ← String.append_assoc]

theorem isOk_ok {e : Type} {a : Type} (x : a) : (Except.ok x : Except e a).isOk = true := rfl

theorem isOk_error {e : Type} {a : Type} (x : e) : (Except.error x : Except e a).isOk = false := rfl

theorem buildExecArray_ok_of (l : List PyArg)
    (h : ∀ a ∈ l, _CheckRunShellCommandArg a = true) :
    ∃ p s, buildExecArray l = .ok (p, s) := by
  induction l with
  | nil => exact ⟨[], none, rfl⟩
  | cons a rest ih =>
    obtain ⟨p, s, hres⟩ := ih (fun x hx => h x (by simp [hx]))
    refine ⟨pyArgToString a :: p,
      if (pyArgToString a).data.contains ',' then some "|" else s, ?_⟩
    unfold buildExecArray
    rw [if_pos (h a (by simp)), hres]

theorem buildExecArray_error_of (l : List PyArg) (a : PyArg) (ha : a ∈ l)
    (h : _CheckRunShellCommandArg a = false) :
    ∃ e, buildExecArray l = .error e := by
  induction l with
  | nil => simp at ha
  | cons b rest ih =>
    by_cases hb : _CheckRunShellCommandArg b = true
    · have hmem : a ∈ rest := by
        rcases List.mem_cons.mp ha with rfl | hmem
        · rw [h] at hb
          cases hb
        · exact hmem
      obtain ⟨e, hres⟩ := ih hmem
      refine ⟨e, ?_⟩
      unfold buildExecArray
      rw [if_pos hb, hres]
    · refine ⟨.valueError "RunShellCommand(): unexpected argument type", ?_⟩
      unfold buildExecArray
      rw [if_neg hb]

/-- C7 (amended): the constructor accepts a spec exactly when the command is
a non-empty sequence whose elements all pass the argument type check, the
(defaulted) working directory exists, and any present timeout coerces to an
integer — the sign of the timeout is not checked. -/
theorem claims_C7_amended (args : RunShellCommandArgs) (isdir : String → Bool) (getcwd : String) :
    (RunShellCommand_init args isdir getcwd).isOk = true ↔
      ((∃ cmd, args.command = PyCommandVal.pyList cmd ∧ cmd ≠ [] ∧
          ∀ a ∈ cmd, _CheckRunShellCommandArg a = true) ∧
       isdir ((args.workdir).getD getcwd) = true ∧
       (∀ tv, args.timeout = some tv → (pyIntCoerce tv).isSome = true)) := by
  cases hcmd : args.command with
  | pyNonSequence =>
    unfold RunShellCommand_init
    rw [hcmd]
    constructor
    · intro h
      rw [isOk_error] at h
      cases h
    · rintro ⟨⟨cmd, hc, _⟩, _⟩
      cases hc
  | pyList cmd =>
    unfold RunShellCommand_init
    rw [hcmd]
    dsimp only
    by_cases hlen : cmd.length = 0
    · have hnil : cmd = [] := List.length_eq_zero.mp hlen
      rw [if_pos hlen]
      constructor
      · intro h
        rw [isOk_error] at h
        cases h
      · rintro ⟨⟨cmd', hc, hne, _⟩, _⟩
        injection hc with hc
        exact (hne (hc ▸ hnil)).elim
    · rw [if_neg hlen]
      have hne : cmd ≠ [] := fun h => hlen (by simp [h])
      cases hbe : buildExecArray cmd with
      | error e =>
        constructor
        · intro h
          rw [isOk_error] at h
          cases h
        · rintro ⟨⟨cmd', hc, _, hall⟩, _⟩
          injection hc with hc
          obtain ⟨p, s, hok⟩ := buildExecArray_ok_of cmd (hc ▸ hall)
          rw [hok] at hbe
          cases hbe
      | ok pr =>
        obtain ⟨execArray, sep⟩ := pr
        have hall : ∀ a ∈ cmd, _CheckRunShellCommandArg a = true := by
          intro a ha
          by_contra hna
          obtain ⟨e, he⟩ := buildExecArray_error_of cmd a ha (by
            revert hna
            cases _CheckRunShellCommandArg a <;> simp)
          rw [he] at hbe
          cases hbe
        dsimp only
        by_cases hdir : isdir ((args.workdir).getD getcwd) = true
        · rw [if_pos hdir]
          cases hto : args.timeout with
          | none =>
            dsimp only
            constructor
            · intro _
              exact ⟨⟨cmd, rfl, hne, hall⟩, hdir, fun tv h => Option.noConfusion h⟩
            · intro _
              exact isOk_ok _
          | some tv =>
            dsimp only
            cases hco : pyIntCoerce tv with
            | none =>
              constructor
              · intro h
                rw [isOk_error] at h
                cases h
              · rintro ⟨_, _, hti⟩
                have h5 := hti tv rfl
                rw [hco] at h5
                cases h5
            | some k =>
              constructor
              · intro _
                refine ⟨⟨cmd, rfl, hne, hall⟩, hdir, fun tv' h => ?_⟩
                injection h with h
                rw [← h, hco]
                rfl
              · intro _
                exact isOk_ok _
        · rw [if_neg hdir]
          constructor
          · intro h
            rw [isOk_error] at h
            cases h
          · rintro ⟨_, hd, _⟩
            exact (hdir hd).elim

/-- C10 (claim): before `Run` has executed, the output monitor does not
exist, so the stdout, rawstdout, stderr and rawstderr accessors all return
`None` (not an empty list or string) and `outputBackedByFile` is false. -/
theorem claims_C10 (args : RunShellCommandArgs) (isdir : String → Bool) (getcwd : String)
    (rsc : RunShellCommand) (h : RunShellCommand_init args isdir getcwd = .ok rsc) :
    rsc.stdout = none ∧ rsc.rawstdout = none ∧ rsc.stderr = none ∧ rsc.rawstderr = none ∧
    rsc.outputBackedByFile = false := by
  have hmon : rsc._outputMonitor = none := by
    unfold RunShellCommand_init at h
    dsimp only at h
    repeat' split at h
    all_goals
      first
        | exact Except.noConfusion h
        | (injection h with h2; subst h2; rfl)
  refine ⟨?_, ?_, ?_, ?_, ?_⟩ <;>
    simp [RunShellCommand.stdout, RunShellCommand.rawstdout, RunShellCommand.stderr,
      RunShellCommand.rawstderr, RunShellCommand.outputBackedByFile,
      RunShellCommand._GetOutputFromMonitor, hmon]

/-!
## Concrete instances

Shared concrete inputs used by the counterexamples and witnesses below.
`exampleArgs` is a plain keyword-argument set (auto-run disabled, a numeric
timeout, an existing working directory); `witnessRsc` and `c10wRsc` are the
objects `RunShellCommand_init` builds from such argument sets.
-/

def exampleArgs : RunShellCommandArgs :=
  { command := .pyList [.pyStr "mycmd"], appendLogfile := true, appendErrorLogfile := true,
    autoRun := false, combineOutput := true, errorLogfile := none, logfile := none,
    printOutput := none, timeout := some (.tInt 300), raiseErrors := true, verbose := false,
    workdir := some "/work", storeBigOutput := true }

/-- The object `RunShellCommand_init exampleArgs (fun _ => true) "/cwd"`
produces (checked by `rfl` in the C10 witness). -/
def c10wRsc : RunShellCommand :=
  { _command := [.pyStr "mycmd"], _execArray := ["mycmd"], _workdir := "/work",
    _timeout := some 300, _raiseErrors := true, _storeBigOutput := true, _printOutput := false,
    _verbose := false, _combineOutput := true, _logfile := none, _errorLogfile := none,
    _appendLogfile := true, _appendErrorLogfile := true, _processWasKilled := false,
    _processTimedOut := false, _startTime := none, _endTime := none, _returncode := none,
    _outputMonitor := none, _RunShellCommand__str__separator := none,
    str__separator := ",", str__decorate := true }

/-- Like `c10wRsc` but with `timeout=None` explicitly passed. -/
def c1cexRsc : RunShellCommand := { c10wRsc with _timeout := none }

def c1cexQueue : List _OutputLineDesc :=
  [⟨0, PIPE_STDERR, some "boom\n"⟩, ⟨1, PIPE_STDERR, none⟩, ⟨2, PIPE_STDOUT, none⟩]

def c1cexPB : ProcessBehavior := ⟨1, 0, 5, c1cexQueue⟩

/-- C1 (counterexample): a command constructed with `timeout=None` and
`raiseErrors=true` whose process exits 1 after writing "boom" to stderr.
`Run` raises, and the attached result does report return code 1 — but the
error's explanation is the bare timed-out message: it contains no character
of the captured stderr line (no letter b at all), so it does not carry the
last 5 lines of stderr as the claim states for every non-zero exit. -/
theorem claims_C1_counterexample :
    RunShellCommand_init { exampleArgs with timeout := none } (fun _ => true) "/cwd" =
      .ok c1cexRsc ∧
    (c1cexRsc.Run c1cexPB 100).2.map (fun e => e.explanation) =
      some "RunShellCommand(): command [mycmd] timed out" ∧
    (c1cexRsc.Run c1cexPB 100).2.map (fun e => e.details._returncode) = some (some 1) ∧
    (c1cexRsc.Run c1cexPB 100).1.stderr = some (.ok (.pyList ["boom"])) ∧
    (c1cexRsc.Run c1cexPB 100).2.map (fun e => e.explanation.data.count 'b') = some 0 ∧
    "boom".data.count 'b' = 1 := by
  refine ⟨rfl, rfl, rfl, rfl, ?_, by decide⟩
  decide

def c4Args : RunShellCommandArgs :=
  { exampleArgs with command := .pyList [.pyStr "echo", .pyStr "hi"], storeBigOutput := false }

def c4Queue : List _OutputLineDesc :=
  [⟨0, PIPE_STDOUT, some "hi\n"⟩, ⟨1, PIPE_STDOUT, none⟩, ⟨2, PIPE_STDERR, none⟩]

def c4PB : ProcessBehavior := ⟨0, 0, 1, c4Queue⟩

/-- C4 (code bug): a command constructed with `storeBigOutput=false` whose
single output line (1 ≤ threshold 100) never crosses the retention
threshold, yet after `Run` the result is file-backed: `Run` (line 687) never
forwards `storeBigOutput` to the output monitor, and the monitor's sentinel
handling flushes to the spill file unconditionally, creating it. -/
theorem claims_C4_bug :
    (RunShellCommand_init c4Args (fun _ => true) "/cwd").map
      (fun rsc => (rsc._storeBigOutput, (rsc.Run c4PB 100).1.outputBackedByFile)) =
      .ok (false, true) ∧
    c4Queue.countP (fun r => r.content.isSome) = 1 ∧ 1 < 100 := by
  refine ⟨rfl, by decide, by decide⟩

/-- C7 (counterexample): the constructor accepts `timeout=-5` (coerces to a
negative integer; the claim says any timeout failing to coerce to a
non-negative integer is rejected), and rejects a spec whose argv is
non-empty, whose working directory exists, and whose timeout coerces, merely
because one argv element has an unsupported type — so specs passing the
claim's three checks are not all accepted. -/
theorem claims_C7_counterexample :
    (RunShellCommand_init { exampleArgs with timeout := some (.tInt (-5)) }
      (fun _ => true) "/cwd").isOk = true ∧
    ((-5 : Int) < 0) ∧
    (RunShellCommand_init { exampleArgs with command := .pyList [.pyStr "x", .pyOther] }
      (fun _ => true) "/cwd").isOk = false ∧
    (pyIntCoerce (.tInt 300)).isSome = true ∧
    [PyArg.pyStr "x", PyArg.pyOther] ≠ [] := by
  exact ⟨rfl, by decide, rfl, rfl, by simp⟩

def c8Args : RunShellCommandArgs :=
  { exampleArgs with command := .pyList [.pyStr "a,b", .pyStr "c"] }

/-- C8 (code bug): for `command=("a,b","c")` the constructor's escalation at
line 458 writes `'|'` — but into the name-mangled attribute
`_RunShellCommand__str__separator`, which `__str__` never reads; `__str__`
joins with `str__separator`, still `','`, so the display form is "[a,b,c]"
rather than the "[a,b|c]" the claim requires. -/
theorem claims_C8_bug :
    (RunShellCommand_init c8Args (fun _ => true) "/cwd").map
      (fun r => (r.pyToString, r._RunShellCommand__str__separator, r.str__separator)) =
      .ok ("[a,b,c]", some "|", ",") ∧
    "[a,b,c]" ≠ "[a,b|c]" := by
  exact ⟨rfl, by decide⟩

/-!
## Witnesses
-/

def c2wQueue : List _OutputLineDesc :=
  [⟨0, PIPE_STDOUT, some "hello\n"⟩, ⟨1, PIPE_STDOUT, none⟩, ⟨0, PIPE_STDERR, none⟩]

def c2wPB : ProcessBehavior := ⟨0, 0, 1, c2wQueue⟩

theorem claims_C2_witness :
    (c10wRsc.Run c2wPB 100).1.stdout = some (.ok (.pyList ["hello"])) ∧
    (["hello"] : List String).length = 1 := by
  have h := claims_C2 c10wRsc c2wPB 100 ["hello\n"] [] (fun i => i) (fun i => i)
    (.left (.left (.right .nil)))
  exact ⟨by rw [h.1]; rfl, rfl⟩

def c3wQueue : List _OutputLineDesc :=
  [⟨0, PIPE_STDOUT, some "a\n"⟩, ⟨1, PIPE_STDOUT, some "b\n"⟩, ⟨2, PIPE_STDOUT, none⟩,
   ⟨0, PIPE_STDERR, none⟩]

theorem claims_C3_witness :
    ((mkOutputQueueReader 2 [] true false false 0).runLoop 0 c3wQueue).1.GetOutput
        PIPE_STDOUT false =
      ((mkOutputQueueReader 2 [] false false false 100).runLoop 0 c3wQueue).1.GetOutput
        PIPE_STDOUT false ∧
    (PIPE_STDOUT = PIPE_STDOUT ∨ PIPE_STDOUT = PIPE_STDERR) := by
  have h := claims_C3 ["a\n", "b\n"] [] (fun i => i) (fun i => i) c3wQueue [] []
    true false false false false false 0 100 PIPE_STDOUT false
    (.left (.left (.left (.right .nil)))) (Or.inl rfl)
  exact ⟨h, Or.inl rfl⟩

theorem claims_C5_witness :
    ((mkOutputQueueReader 2 [] true false false 100).runLoop 0 c3wQueue).2.1 = 2 ∧
    ((mkOutputQueueReader 2 [] true false false 100).runLoop 0 c3wQueue).2.2 = [] ∧
    c3wQueue.countP (fun r => r.content.isNone) = 2 := by
  have h := claims_C5 ["a\n", "b\n"] [] (fun i => i) (fun i => i) c3wQueue []
    true false false 100 (.left (.left (.left (.right .nil))))
  exact ⟨h.2.2.2.2.2.1.trans rfl, h.2.2.2.2.2.2.2, h.2.2.2.2.1⟩

theorem claims_C6_witness :
    ((((mkOutputQueueReader 2 [] true false false 0).runLoop 0 c3wQueue).1.GetOutputM
        PIPE_STDOUT false).2.GetOutputM PIPE_STDOUT false).1 =
      (((mkOutputQueueReader 2 [] true false false 0).runLoop 0 c3wQueue).1.GetOutputM
        PIPE_STDOUT false).1 ∧
    (((mkOutputQueueReader 2 [] true false false 0).runLoop 0 c3wQueue).1.GetOutputM
        PIPE_STDOUT false).1.isOk = true := by
  have h := claims_C6 ["a\n", "b\n"] [] (fun i => i) (fun i => i) c3wQueue []
    true false false 0 PIPE_STDOUT false
    (.left (.left (.left (.right .nil)))) (Or.inl rfl)
  exact ⟨h.1, h.2.2.2⟩

def c1wErrLines : List String := ["e1\n", "e2\n", "e3\n", "e4\n", "e5\n", "e6\n"]

def c1wQueue : List _OutputLineDesc :=
  [⟨0, PIPE_STDERR, some "e1\n"⟩, ⟨1, PIPE_STDERR, some "e2\n"⟩, ⟨2, PIPE_STDERR, some "e3\n"⟩,
   ⟨3, PIPE_STDERR, some "e4\n"⟩, ⟨4, PIPE_STDERR, some "e5\n"⟩, ⟨5, PIPE_STDERR, some "e6\n"⟩,
   ⟨6, PIPE_STDERR, none⟩, ⟨0, PIPE_STDOUT, none⟩]

def c1wPB : ProcessBehavior := ⟨7, 0, 1, c1wQueue⟩

theorem claims_C1_witness :
    c10wRsc._raiseErrors = true ∧ (7 : Int) ≠ 0 ∧
    ∃ err, (c10wRsc.Run c1wPB 100).2 = some err ∧
      err.details._returncode = some 7 ∧
      err.explanation = "RunShellCommand(): command [mycmd] failed; exit value: 7, " ++
        "partial stderr: e2 e3 e4 e5 e6" := by
  have h := claims_C1_amended c10wRsc c1wPB 100 [] c1wErrLines (fun i => i) (fun i => i)
    (.right (.right (.right (.right (.right (.right (.right (.left .nil))))))))
    rfl rfl rfl rfl 300 rfl
  obtain ⟨err, he, hrc, hex⟩ := h.2 (by decide)
  refine ⟨rfl, by decide, err, he, hrc, ?_⟩
  rw [hex]
  rfl

theorem claims_C9_witness :
    c1cexRsc._timeout = none ∧
    (c1cexRsc.Run c1cexPB 100).1._processWasKilled = true ∧
    (c1cexRsc.Run c1cexPB 100).1._processTimedOut = true :=
  ⟨rfl, (claims_C9 c1cexRsc c1cexPB 100 rfl).1, (claims_C9 c1cexRsc c1cexPB 100 rfl).2⟩

theorem claims_C10_witness :
    RunShellCommand_init exampleArgs (fun _ => true) "/cwd" = .ok c10wRsc ∧
    c10wRsc.stdout = none ∧ c10wRsc.rawstdout = none ∧ c10wRsc.stderr = none ∧
    c10wRsc.rawstderr = none ∧ c10wRsc.outputBackedByFile = false := by
  have hinit : RunShellCommand_init exampleArgs (fun _ => true) "/cwd" = .ok c10wRsc := rfl
  have h := claims_C10 exampleArgs (fun _ => true) "/cwd" c10wRsc hinit
  exact ⟨hinit, h.1, h.2.1, h.2.2.1, h.2.2.2.1, h.2.2.2.2⟩

end QuickRelease
